import Mathlib

/-!
Verification of the CreditAgent scoring pipeline.

The source (credit_agent_fmp.py, credit_agent.py, credit_agent_llm.py) computes
financial quantities from raw statement payloads, derives free cash flow and
four credit ratios (with `math.inf` as a division-by-zero sentinel), scores the
four ratios through fixed threshold chains, sums them to a composite score and
maps the composite to a risk bucket string.

Python float values that flow through the ratio/score pipeline are modelled as
`Val`: either a finite rational, positive infinity (`math.inf`) or negative
infinity (`-math.inf`).  The comparison operators on `Val` mirror IEEE/Python
comparisons on those values.
-/

/-- A Python float value as used by the pipeline: a finite real (modelled as a
rational), `math.inf`, or `-math.inf`. -/
inductive Val where
  | fin (q : ℚ)
  | inf
  | ninf
deriving DecidableEq, Repr

namespace Val

/-- Python `a < b` on floats restricted to finite / ±inf values. -/
def lt : Val → Val → Prop
  | .ninf, .ninf => False
  | .ninf, _ => True
  | .fin _, .ninf => False
  | .fin a, .fin b => a < b
  | .fin _, .inf => True
  | .inf, _ => False

/-- Python `a <= b` on floats restricted to finite / ±inf values. -/
def le : Val → Val → Prop
  | .ninf, _ => True
  | .fin _, .ninf => False
  | .fin a, .fin b => a ≤ b
  | .fin _, .inf => True
  | .inf, .inf => True
  | .inf, _ => False

instance : ∀ a b : Val, Decidable (lt a b)
  | .ninf, .ninf => .isFalse id
  | .ninf, .fin _ => .isTrue trivial
  | .ninf, .inf => .isTrue trivial
  | .fin _, .ninf => .isFalse id
  | .fin a, .fin b => inferInstanceAs (Decidable (a < b))
  | .fin _, .inf => .isTrue trivial
  | .inf, .ninf => .isFalse id
  | .inf, .fin _ => .isFalse id
  | .inf, .inf => .isFalse id

instance : ∀ a b : Val, Decidable (le a b)
  | .ninf, .ninf => .isTrue trivial
  | .ninf, .fin _ => .isTrue trivial
  | .ninf, .inf => .isTrue trivial
  | .fin _, .ninf => .isFalse id
  | .fin a, .fin b => inferInstanceAs (Decidable (a ≤ b))
  | .fin _, .inf => .isTrue trivial
  | .inf, .ninf => .isFalse id
  | .inf, .fin _ => .isFalse id
  | .inf, .inf => .isTrue trivial

end Val

/-!
## The CreditMetrics record

Mirrors the `CreditMetrics` dataclass shared by all three pipeline variants.
The four ratio fields may carry the infinity sentinel, so they are `Val`; the
extracted statement quantities are always finite, so they are `ℚ`.
-/

structure CreditMetrics where
  ticker : String
  company_name : String
  fiscal_year : String
  revenue : ℚ
  ebitda : ℚ
  ebit : ℚ
  interest_expense : ℚ
  operating_cash_flow : ℚ
  capex : ℚ
  change_in_wc : ℚ
  total_debt : ℚ
  fcf : ℚ
  fcf_to_debt : Val
  debt_to_ebitda : Val
  interest_coverage : Val
  dscr : Val
  score : ℤ
  rating_bucket : String
deriving DecidableEq, Repr

/-!
## Scoring logic (`compute_score`, identical in all three source files)
-/

/-- The Debt/EBITDA branch of `compute_score`:
`if d_e <= 0: 5 elif d_e < 2: 5 elif d_e < 3: 4 elif d_e < 4: 3 elif d_e < 5: 2 else: 1`. -/
def debt_ebitda_score (d_e : Val) : ℤ :=
  if d_e.le (.fin 0) then 5
  else if d_e.lt (.fin 2) then 5
  else if d_e.lt (.fin 3) then 4
  else if d_e.lt (.fin 4) then 3
  else if d_e.lt (.fin 5) then 2
  else 1

/-- The interest-coverage branch of `compute_score`:
`if ic > 8: 5 elif ic > 5: 4 elif ic > 3: 3 elif ic > 1.5: 2 else: 1`. -/
def ic_score (ic : Val) : ℤ :=
  if (Val.fin 8).lt ic then 5
  else if (Val.fin 5).lt ic then 4
  else if (Val.fin 3).lt ic then 3
  else if (Val.fin 1.5).lt ic then 2
  else 1

/-- The DSCR branch of `compute_score`:
`if dscr > 1.8: 5 elif dscr > 1.4: 4 elif dscr > 1.1: 3 elif dscr > 1.0: 2 else: 1`. -/
def dscr_score (dscr : Val) : ℤ :=
  if (Val.fin 1.8).lt dscr then 5
  else if (Val.fin 1.4).lt dscr then 4
  else if (Val.fin 1.1).lt dscr then 3
  else if (Val.fin 1.0).lt dscr then 2
  else 1

/-- The FCF/Debt branch of `compute_score`:
`if fcf_d > 0.25: 5 elif fcf_d > 0.15: 4 elif fcf_d > 0.08: 3 elif fcf_d > 0.03: 2 else: 1`. -/
def fcf_score (fcf_d : Val) : ℤ :=
  if (Val.fin 0.25).lt fcf_d then 5
  else if (Val.fin 0.15).lt fcf_d then 4
  else if (Val.fin 0.08).lt fcf_d then 3
  else if (Val.fin 0.03).lt fcf_d then 2
  else 1

/-- The bucket chain at the end of `compute_score`:
`if score >= 17: "Low..." elif score >= 13: "Moderate..." elif score >= 9: "Elevated..." else: "High..."`. -/
def rating_bucket_of (score : ℤ) : String :=
  if score ≥ 17 then "Low credit risk"
  else if score ≥ 13 then "Moderate credit risk"
  else if score ≥ 9 then "Elevated credit risk"
  else "High credit risk"

/-- `compute_score`: accumulates the four sub-scores into `score`, picks the
bucket, and writes `score` / `rating_bucket` back into the record (the Python
code mutates the dataclass in place and returns it). -/
def compute_score (metrics : CreditMetrics) : CreditMetrics :=
  let score : ℤ := 0
  let score := score + debt_ebitda_score metrics.debt_to_ebitda
  let score := score + ic_score metrics.interest_coverage
  let score := score + dscr_score metrics.dscr
  let score := score + fcf_score metrics.fcf_to_debt
  let bucket := rating_bucket_of score
  { metrics with score := score, rating_bucket := bucket }

/-!
## Extractor field reading

`credit_agent_fmp.py` reads each numeric quantity with a Python `or`-chain
`d.get(k1) or d.get(k2) or 0.0`: an absent key gives `None` (falsy) and a
present value participates by truthiness, so a stored `0` is also skipped.
`credit_agent.py` / `credit_agent_llm.py` instead use `safe_get`, which
returns the value of the first label present in the dataframe index,
whatever it is, and the `0.0` default when none is present.

A payload's candidate fields are modelled as a list of `Option ℚ`: `none` for
an absent (or JSON-null) alias, `some v` for an alias present with value `v`.
-/

/-- The FMP `or`-chain read `d.get(k1) or d.get(k2) or ... or 0.0`: the first
truthy (present and nonzero) value wins, otherwise `0.0`. -/
def or_chain_get : List (Option ℚ) → ℚ
  | [] => 0
  | some v :: rest => if v = 0 then or_chain_get rest else v
  | none :: rest => or_chain_get rest

/-- `safe_get` from credit_agent.py: the first label present in the index
wins (whatever its value), otherwise the default `0.0`. -/
def safe_get : List (Option ℚ) → ℚ
  | [] => 0
  | some v :: _ => v
  | none :: rest => safe_get rest

/-- Capex sign normalization in credit_agent_fmp.py:
`if capex < 0: capex = -capex`. -/
def normalize_capex_fmp (raw : ℚ) : ℚ :=
  if raw < 0 then -raw else raw

/-- Capex read in credit_agent.py / credit_agent_llm.py (line
`capex = -safe_get(cashflow, [...])`): the raw value is negated
unconditionally. -/
def capex_yf (raw : ℚ) : ℚ := -raw

/-!
## Ratio Calculator

The `FinancialQuantities` record holds the finite extracted quantities from
which `fetch_credit_metrics_for_symbol` derives fcf and the four ratios.
-/

structure FinancialQuantities where
  revenue : ℚ
  ebitda : ℚ
  ebit : ℚ
  interest_expense : ℚ
  operating_cash_flow : ℚ
  capex : ℚ
  change_in_wc : ℚ
  short_term_debt : ℚ
  long_term_debt : ℚ
deriving DecidableEq, Repr

/-- `total_debt = short_term_debt + long_term_debt`. -/
def FinancialQuantities.total_debt (q : FinancialQuantities) : ℚ :=
  q.short_term_debt + q.long_term_debt

/-- Free cash flow in credit_agent_fmp.py:
`if operating_cash_flow == 0 and ebit != 0: fcf = ebit * (1 - 0.25) - capex - change_in_wc
 else: fcf = operating_cash_flow - capex`. -/
def compute_fcf (q : FinancialQuantities) : ℚ :=
  if q.operating_cash_flow = 0 ∧ q.ebit ≠ 0 then
    q.ebit * (1 - 0.25) - q.capex - q.change_in_wc
  else
    q.operating_cash_flow - q.capex

/-- Free cash flow in credit_agent.py, whose fallback branch adds the
(zero, by the branch condition) `operating_cash_flow` term:
`fcf = ebit * (1 - tax_rate) + (operating_cash_flow) - capex - change_in_wc`. -/
def compute_fcf_yf (q : FinancialQuantities) : ℚ :=
  if q.operating_cash_flow = 0 ∧ q.ebit ≠ 0 then
    q.ebit * (1 - 0.25) + q.operating_cash_flow - q.capex - q.change_in_wc
  else
    q.operating_cash_flow - q.capex

/-- `fcf_to_debt = (fcf / total_debt) if total_debt > 0 else math.inf`. -/
def fcf_to_debt_ratio (q : FinancialQuantities) : Val :=
  if q.total_debt > 0 then .fin (compute_fcf q / q.total_debt) else .inf

/-- `debt_to_ebitda = (total_debt / ebitda) if ebitda != 0 else math.inf`. -/
def debt_to_ebitda_ratio (q : FinancialQuantities) : Val :=
  if q.ebitda ≠ 0 then .fin (q.total_debt / q.ebitda) else .inf

/-- `interest_coverage = (ebit / abs(interest_expense)) if interest_expense != 0 else math.inf`. -/
def interest_coverage_ratio (q : FinancialQuantities) : Val :=
  if q.interest_expense ≠ 0 then .fin (q.ebit / |q.interest_expense|) else .inf

/-- `denom = abs(interest_expense) + short_term_debt;
dscr = (operating_cash_flow / denom) if denom > 0 else math.inf`. -/
def dscr_ratio (q : FinancialQuantities) : Val :=
  if |q.interest_expense| + q.short_term_debt > 0 then
    .fin (q.operating_cash_flow / (|q.interest_expense| + q.short_term_debt))
  else .inf

/-!
## Helper lemmas about the scorer
-/

lemma debt_ebitda_score_bounds (v : Val) :
    1 ≤ debt_ebitda_score v ∧ debt_ebitda_score v ≤ 5 := by
  unfold debt_ebitda_score; split_ifs <;> norm_num

lemma ic_score_bounds (v : Val) : 1 ≤ ic_score v ∧ ic_score v ≤ 5 := by
  unfold ic_score; split_ifs <;> norm_num

lemma dscr_score_bounds (v : Val) : 1 ≤ dscr_score v ∧ dscr_score v ≤ 5 := by
  unfold dscr_score; split_ifs <;> norm_num

lemma fcf_score_bounds (v : Val) : 1 ≤ fcf_score v ∧ fcf_score v ≤ 5 := by
  unfold fcf_score; split_ifs <;> norm_num

lemma ic_score_mono {x y : Val} (h : x.le y) : ic_score x ≤ ic_score y := by
  cases x with
  | ninf =>
    have hx : ic_score .ninf = 1 := by decide
    rw [hx]; exact (ic_score_bounds y).1
  | inf =>
    cases y with
    | inf => exact le_refl _
    | fin b => exact absurd h id
    | ninf => exact absurd h id
  | fin a =>
    cases y with
    | ninf => exact absurd h id
    | inf =>
      have hy : ic_score .inf = 5 := by decide
      rw [hy]; exact (ic_score_bounds _).2
    | fin b =>
      have hab : a ≤ b := h
      simp only [ic_score, Val.lt]
      split_ifs <;> first | decide | linarith

lemma dscr_score_mono {x y : Val} (h : x.le y) : dscr_score x ≤ dscr_score y := by
  cases x with
  | ninf =>
    have hx : dscr_score .ninf = 1 := by decide
    rw [hx]; exact (dscr_score_bounds y).1
  | inf =>
    cases y with
    | inf => exact le_refl _
    | fin b => exact absurd h id
    | ninf => exact absurd h id
  | fin a =>
    cases y with
    | ninf => exact absurd h id
    | inf =>
      have hy : dscr_score .inf = 5 := by decide
      rw [hy]; exact (dscr_score_bounds _).2
    | fin b =>
      have hab : a ≤ b := h
      simp only [dscr_score, Val.lt]
      split_ifs <;> first | decide | linarith

lemma fcf_score_mono {x y : Val} (h : x.le y) : fcf_score x ≤ fcf_score y := by
  cases x with
  | ninf =>
    have hx : fcf_score .ninf = 1 := by decide
    rw [hx]; exact (fcf_score_bounds y).1
  | inf =>
    cases y with
    | inf => exact le_refl _
    | fin b => exact absurd h id
    | ninf => exact absurd h id
  | fin a =>
    cases y with
    | ninf => exact absurd h id
    | inf =>
      have hy : fcf_score .inf = 5 := by decide
      rw [hy]; exact (fcf_score_bounds _).2
    | fin b =>
      have hab : a ≤ b := h
      simp only [fcf_score, Val.lt]
      split_ifs <;> first | decide | linarith

lemma debt_ebitda_score_anti {x y : Val} (h : x.le y) :
    debt_ebitda_score y ≤ debt_ebitda_score x := by
  cases x with
  | ninf =>
    have hx : debt_ebitda_score .ninf = 5 := by decide
    rw [hx]; exact (debt_ebitda_score_bounds y).2
  | inf =>
    cases y with
    | inf => exact le_refl _
    | fin b => exact absurd h id
    | ninf => exact absurd h id
  | fin a =>
    cases y with
    | ninf => exact absurd h id
    | inf =>
      have hy : debt_ebitda_score .inf = 1 := by decide
      rw [hy]; exact (debt_ebitda_score_bounds _).1
    | fin b =>
      have hab : a ≤ b := h
      simp only [debt_ebitda_score, Val.le, Val.lt]
      split_ifs <;> first | decide | linarith

lemma compute_score_score (m : CreditMetrics) :
    (compute_score m).score =
      debt_ebitda_score m.debt_to_ebitda + ic_score m.interest_coverage
        + dscr_score m.dscr + fcf_score m.fcf_to_debt := by
  simp [compute_score]

lemma compute_score_bucket (m : CreditMetrics) :
    (compute_score m).rating_bucket = rating_bucket_of (compute_score m).score := by
  simp [compute_score]

/-!
## Concrete records used by witnesses and counterexamples
-/

/-- A concrete extracted-quantities record with `ebitda = 0` and non-negative
`total_debt = 5`. -/
def q_zero_ebitda : FinancialQuantities :=
  { revenue := 0, ebitda := 0, ebit := 0, interest_expense := 0,
    operating_cash_flow := 0, capex := 0, change_in_wc := 0,
    short_term_debt := 3, long_term_debt := 2 }

/-- The fallback-FCF example from the spec: operating_cash_flow = 0,
ebit = 10e9, capex = 1e9, change_in_wc = 0.5e9. -/
def q_fcf_example : FinancialQuantities :=
  { revenue := 0, ebitda := 0, ebit := 10000000000, interest_expense := 0,
    operating_cash_flow := 0, capex := 1000000000, change_in_wc := 500000000,
    short_term_debt := 0, long_term_debt := 0 }

/-- A concrete metrics record (the spec's end-to-end example, scaled to units
of 1e9) before scoring. -/
def sample_metrics : CreditMetrics :=
  { ticker := "ACME", company_name := "ACME Corp", fiscal_year := "2024",
    revenue := 100, ebitda := 30, ebit := 25, interest_expense := 2,
    operating_cash_flow := 20, capex := 5, change_in_wc := 0, total_debt := 13,
    fcf := 15, fcf_to_debt := .fin (15/13), debt_to_ebitda := .fin (13/30),
    interest_coverage := .fin (25/2), dscr := .fin 4,
    score := 0, rating_bucket := "" }

/-!
## Claims
-/

/-- C3: the rating bucket assigned by `compute_score` is the pure top-down
mapping of the composite score: `≥17 → "Low credit risk"`, else
`≥13 → "Moderate credit risk"`, else `≥9 → "Elevated credit risk"`, else
`"High credit risk"`; boundary values 8→High, 9→Elevated, 12→Elevated,
13→Moderate, 16→Moderate, 17→Low, 20→Low. -/
theorem C3_bucket_mapping (s : ℤ) :
    (∀ m : CreditMetrics,
      (compute_score m).rating_bucket = rating_bucket_of (compute_score m).score) ∧
    (17 ≤ s → rating_bucket_of s = "Low credit risk") ∧
    (13 ≤ s → s < 17 → rating_bucket_of s = "Moderate credit risk") ∧
    (9 ≤ s → s < 13 → rating_bucket_of s = "Elevated credit risk") ∧
    (s < 9 → rating_bucket_of s = "High credit risk") ∧
    rating_bucket_of 8 = "High credit risk" ∧
    rating_bucket_of 9 = "Elevated credit risk" ∧
    rating_bucket_of 12 = "Elevated credit risk" ∧
    rating_bucket_of 13 = "Moderate credit risk" ∧
    rating_bucket_of 16 = "Moderate credit risk" ∧
    rating_bucket_of 17 = "Low credit risk" ∧
    rating_bucket_of 20 = "Low credit risk" := by
  refine ⟨compute_score_bucket, ?_, ?_, ?_, ?_, ?_, ?_, ?_, ?_, ?_, ?_, ?_⟩ <;>
    first
      | decide
      | (intros; unfold rating_bucket_of; split_ifs <;> first | rfl | omega)

/-- Witness for C3 at the boundary score 16. -/
theorem C3_bucket_mapping_witness :
    (13 : ℤ) ≤ 16 ∧ (16 : ℤ) < 17 ∧ rating_bucket_of 16 = "Moderate credit risk" :=
  ⟨by decide, by decide, (C3_bucket_mapping 16).2.2.1 (by decide) (by decide)⟩

/-- C4: the composite score of `compute_score` is the exact sum of the four
sub-scores, and always lies in `[4, 20]`, for any finite or infinite ratio
values. -/
theorem C4_composite_sum_and_range (m : CreditMetrics) :
    (compute_score m).score =
      debt_ebitda_score m.debt_to_ebitda + ic_score m.interest_coverage
        + dscr_score m.dscr + fcf_score m.fcf_to_debt ∧
    4 ≤ (compute_score m).score ∧ (compute_score m).score ≤ 20 := by
  refine ⟨compute_score_score m, ?_, ?_⟩ <;>
    rw [compute_score_score m] <;>
    have h1 := debt_ebitda_score_bounds m.debt_to_ebitda <;>
    have h2 := ic_score_bounds m.interest_coverage <;>
    have h3 := dscr_score_bounds m.dscr <;>
    have h4 := fcf_score_bounds m.fcf_to_debt <;>
    linarith [h1.1, h1.2, h2.1, h2.2, h3.1, h3.2, h4.1, h4.2]

/-- C9: `compute_score` writes only `score` and `rating_bucket`, leaving all
other fields unchanged, and those two outputs depend only on the four ratio
fields. -/
theorem C9_frame (m m2 : CreditMetrics) :
    ((compute_score m).ticker = m.ticker ∧
     (compute_score m).company_name = m.company_name ∧
     (compute_score m).fiscal_year = m.fiscal_year ∧
     (compute_score m).revenue = m.revenue ∧
     (compute_score m).ebitda = m.ebitda ∧
     (compute_score m).ebit = m.ebit ∧
     (compute_score m).interest_expense = m.interest_expense ∧
     (compute_score m).operating_cash_flow = m.operating_cash_flow ∧
     (compute_score m).capex = m.capex ∧
     (compute_score m).change_in_wc = m.change_in_wc ∧
     (compute_score m).total_debt = m.total_debt ∧
     (compute_score m).fcf = m.fcf ∧
     (compute_score m).fcf_to_debt = m.fcf_to_debt ∧
     (compute_score m).debt_to_ebitda = m.debt_to_ebitda ∧
     (compute_score m).interest_coverage = m.interest_coverage ∧
     (compute_score m).dscr = m.dscr) ∧
    (m.debt_to_ebitda = m2.debt_to_ebitda →
     m.interest_coverage = m2.interest_coverage →
     m.dscr = m2.dscr →
     m.fcf_to_debt = m2.fcf_to_debt →
     (compute_score m).score = (compute_score m2).score ∧
     (compute_score m).rating_bucket = (compute_score m2).rating_bucket) := by
  refine ⟨⟨rfl, rfl, rfl, rfl, rfl, rfl, rfl, rfl, rfl, rfl, rfl, rfl, rfl, rfl, rfl, rfl⟩, ?_⟩
  intro h1 h2 h3 h4
  constructor <;> simp [compute_score, h1, h2, h3, h4]

/-- Witness for C9: two records that differ in every non-ratio field but agree
on the four ratios get the same score and bucket. -/
theorem C9_frame_witness :
    (compute_score sample_metrics).ticker = "ACME" ∧
    (compute_score sample_metrics).score =
      (compute_score { sample_metrics with ticker := "OTHER", revenue := 7 }).score := by
  have h := C9_frame sample_metrics { sample_metrics with ticker := "OTHER", revenue := 7 }
  exact ⟨h.1.1, (h.2 rfl rfl rfl rfl).1⟩

/-- C1 counterexample: the claim says the +∞ sentinel yields sub-score 5 in all
four step functions, and in particular that with ebitda = 0 (total_debt = 5 ≥ 0)
the debt_to_ebitda sub-score is 5.  On the code, +∞ falls past every
debt_to_ebitda threshold (`inf <= 0`, `inf < 2`, ... are all false) into the
`else` branch, scoring 1. -/
theorem C1_counterexample :
    debt_ebitda_score .inf = 1 ∧ debt_ebitda_score .inf ≠ 5 ∧
    q_zero_ebitda.ebitda = 0 ∧ (0 : ℚ) ≤ q_zero_ebitda.total_debt ∧
    debt_to_ebitda_ratio q_zero_ebitda = .inf ∧
    debt_ebitda_score (debt_to_ebitda_ratio q_zero_ebitda) = 1 := by
  have hr : debt_to_ebitda_ratio q_zero_ebitda = .inf := by
    simp [debt_to_ebitda_ratio, q_zero_ebitda]
  refine ⟨by decide, by decide, rfl, ?_, hr, ?_⟩
  · norm_num [q_zero_ebitda, FinancialQuantities.total_debt]
  · rw [hr]; decide

/-- C1 (amended): feeding the +∞ sentinel yields the maximum sub-score 5 for
interest_coverage, dscr and fcf_to_debt, but for debt_to_ebitda it falls past
every threshold to the minimum sub-score 1; for any non-negative total_debt
with ebitda = 0, debt_to_ebitda is the +∞ sentinel and its sub-score is 1. -/
theorem C1_inf_subscores (q : FinancialQuantities)
    (hz : q.ebitda = 0) (_hd : 0 ≤ q.total_debt) :
    ic_score .inf = 5 ∧ dscr_score .inf = 5 ∧ fcf_score .inf = 5 ∧
    debt_ebitda_score .inf = 1 ∧
    debt_to_ebitda_ratio q = .inf ∧
    debt_ebitda_score (debt_to_ebitda_ratio q) = 1 := by
  have hr : debt_to_ebitda_ratio q = .inf := by
    simp [debt_to_ebitda_ratio, hz]
  exact ⟨by decide, by decide, by decide, by decide, hr, by rw [hr]; decide⟩

/-- Witness for C1 (amended) at the concrete zero-ebitda record. -/
theorem C1_inf_subscores_witness :
    q_zero_ebitda.ebitda = 0 ∧ (0 : ℚ) ≤ q_zero_ebitda.total_debt ∧
    debt_ebitda_score (debt_to_ebitda_ratio q_zero_ebitda) = 1 := by
  have hd : (0 : ℚ) ≤ q_zero_ebitda.total_debt := by
    simp [q_zero_ebitda, FinancialQuantities.total_debt]
    norm_num
  exact ⟨rfl, hd, (C1_inf_subscores q_zero_ebitda rfl hd).2.2.2.2.2⟩

/-- C5: the four ratios are computed exactly by the guarded divisions of
`fetch_credit_metrics_for_symbol`, with the +∞ sentinel (never −∞) whenever a
guard fails, and no error in the division-by-zero cases. -/
theorem C5_ratio_definitions (q : FinancialQuantities) :
    (q.total_debt > 0 → fcf_to_debt_ratio q = .fin (compute_fcf q / q.total_debt)) ∧
    (¬ q.total_debt > 0 → fcf_to_debt_ratio q = .inf) ∧
    (q.ebitda ≠ 0 → debt_to_ebitda_ratio q = .fin (q.total_debt / q.ebitda)) ∧
    (q.ebitda = 0 → debt_to_ebitda_ratio q = .inf) ∧
    (q.interest_expense ≠ 0 →
      interest_coverage_ratio q = .fin (q.ebit / |q.interest_expense|)) ∧
    (q.interest_expense = 0 → interest_coverage_ratio q = .inf) ∧
    (|q.interest_expense| + q.short_term_debt > 0 →
      dscr_ratio q =
        .fin (q.operating_cash_flow / (|q.interest_expense| + q.short_term_debt))) ∧
    (¬ |q.interest_expense| + q.short_term_debt > 0 → dscr_ratio q = .inf) ∧
    fcf_to_debt_ratio q ≠ .ninf ∧ debt_to_ebitda_ratio q ≠ .ninf ∧
    interest_coverage_ratio q ≠ .ninf ∧ dscr_ratio q ≠ .ninf := by
  refine ⟨fun h => by simp [fcf_to_debt_ratio, h],
          fun h => by simp [fcf_to_debt_ratio, h],
          fun h => by simp [debt_to_ebitda_ratio, h],
          fun h => by simp [debt_to_ebitda_ratio, h],
          fun h => by simp [interest_coverage_ratio, h],
          fun h => by simp [interest_coverage_ratio, h],
          fun h => by simp [dscr_ratio, h],
          fun h => by simp [dscr_ratio, h],
          ?_, ?_, ?_, ?_⟩ <;>
    · simp only [fcf_to_debt_ratio, debt_to_ebitda_ratio, interest_coverage_ratio,
        dscr_ratio]
      split_ifs <;> simp

/-- Witness for C5 at the zero-ebitda record (total_debt = 5 > 0, ebitda = 0). -/
theorem C5_ratio_definitions_witness :
    q_zero_ebitda.total_debt > 0 ∧
    fcf_to_debt_ratio q_zero_ebitda = .fin (compute_fcf q_zero_ebitda / q_zero_ebitda.total_debt) ∧
    debt_to_ebitda_ratio q_zero_ebitda = .inf := by
  have hd : q_zero_ebitda.total_debt > 0 := by
    simp [q_zero_ebitda, FinancialQuantities.total_debt]
    norm_num
  have h := C5_ratio_definitions q_zero_ebitda
  exact ⟨hd, h.1 hd, h.2.2.2.1 rfl⟩

/-- C6: free cash flow uses the fallback estimate
`ebit * (1 − 0.25) − capex − change_in_wc` exactly when operating_cash_flow = 0
and ebit ≠ 0, and `operating_cash_flow − capex` otherwise; the yfinance variant
(which adds the zero `operating_cash_flow` term in the fallback) agrees; the
spec's example (ocf = 0, ebit = 10e9, capex = 1e9, wc = 0.5e9) gives 6e9. -/
theorem C6_fcf (q : FinancialQuantities) :
    (q.operating_cash_flow = 0 → q.ebit ≠ 0 →
      compute_fcf q = q.ebit * (1 - 0.25) - q.capex - q.change_in_wc) ∧
    (¬ (q.operating_cash_flow = 0 ∧ q.ebit ≠ 0) →
      compute_fcf q = q.operating_cash_flow - q.capex) ∧
    compute_fcf_yf q = compute_fcf q ∧
    compute_fcf q_fcf_example = 6000000000 := by
  refine ⟨fun h1 h2 => by simp [compute_fcf, h1, h2],
          fun h => by simp [compute_fcf, h],
          ?_, ?_⟩
  · unfold compute_fcf_yf compute_fcf
    split_ifs with h
    · rw [h.1]; ring
    · rfl
  · norm_num [compute_fcf, q_fcf_example]

/-- Witness for C6 at the spec's fallback example. -/
theorem C6_fcf_witness :
    q_fcf_example.operating_cash_flow = 0 ∧ q_fcf_example.ebit ≠ 0 ∧
    compute_fcf q_fcf_example =
      q_fcf_example.ebit * (1 - 0.25) - q_fcf_example.capex - q_fcf_example.change_in_wc := by
  have hz : q_fcf_example.operating_cash_flow = 0 := rfl
  have he : q_fcf_example.ebit ≠ 0 := by norm_num [q_fcf_example]
  exact ⟨hz, he, (C6_fcf q_fcf_example).1 hz he⟩

/-- C7 counterexample: the claim says every cited extractor keeps a positive
raw capex unchanged (+500 → 500), but credit_agent.py negates the value
unconditionally, so +500 is stored as −500. -/
theorem C7_counterexample :
    capex_yf 500 = -500 ∧ capex_yf 500 ≠ 500 := by
  constructor <;> norm_num [capex_yf]

/-- C7 (amended): the FMP extractor negates raw capex only when it is negative,
so it always stores the non-negative magnitude |v| (and −500 as well as +500
give 500); the yfinance extractor negates unconditionally, so −500 gives 500
but +500 gives −500. -/
theorem C7_capex_normalization (v : ℚ) :
    normalize_capex_fmp v = |v| ∧ 0 ≤ normalize_capex_fmp v ∧
    normalize_capex_fmp (-500) = 500 ∧ normalize_capex_fmp 500 = 500 ∧
    capex_yf v = -v ∧ capex_yf (-500) = 500 ∧ capex_yf 500 = -500 := by
  have habs : normalize_capex_fmp v = |v| := by
    unfold normalize_capex_fmp
    rcases lt_or_le v 0 with h | h
    · rw [if_pos h, abs_of_neg h]
    · rw [if_neg (not_lt.mpr h), abs_of_nonneg h]
  refine ⟨habs, ?_, ?_, ?_, rfl, ?_, ?_⟩ <;>
    first
      | (rw [habs]; exact abs_nonneg v)
      | norm_num [normalize_capex_fmp, capex_yf]

/-- C8 counterexample: the claim says the first alias that is present and
non-null supplies the value; but the FMP `or`-chain skips a present alias whose
value is 0 (falsy in Python), so `[some 0, some 5]` reads as 5, not 0. -/
theorem C8_counterexample :
    or_chain_get [some 0, some 5] = 5 ∧ or_chain_get [some 0, some 5] ≠ 0 := by
  constructor <;> norm_num [or_chain_get]

/-- C8 (amended): extraction is total (no exception for missing fields) and
reads aliases in priority order, but with Python truthiness in the FMP
extractor: `or_chain_get` returns the first present *nonzero* value (absent,
null and zero-valued aliases are all skipped) and 0.0 if none; `safe_get` in
the yfinance extractors returns the first present value whatever it is, and
0.0 if every alias is absent. -/
theorem C8_alias_reading (xs : List (Option ℚ)) :
    or_chain_get xs = ((xs.filterMap id).filter (fun v => decide (v ≠ 0))).headD 0 ∧
    safe_get xs = (xs.filterMap id).headD 0 := by
  induction xs with
  | nil => exact ⟨rfl, rfl⟩
  | cons x rest ih =>
    cases x with
    | none => exact ih
    | some v =>
      refine ⟨?_, rfl⟩
      by_cases hv : v = 0
      · subst hv
        have h1 : or_chain_get (some 0 :: rest) = or_chain_get rest := by
          simp [or_chain_get]
        have h2 : (((some (0:ℚ) :: rest).filterMap id).filter
              (fun v => decide (v ≠ 0))).headD 0
            = ((rest.filterMap id).filter (fun v => decide (v ≠ 0))).headD 0 := by
          simp
        rw [h1, h2]; exact ih.1
      · simp [or_chain_get, hv]

/-- C2: each sub-score of `compute_score` is the fixed top-down step function
of its table (first matching threshold wins), on finite and infinite values:
debt_to_ebitda ≤0→5, <2→5, <3→4, <4→3, <5→2, else 1; interest_coverage >8→5,
>5→4, >3→3, >1.5→2, else 1; dscr >1.8→5, >1.4→4, >1.1→3, >1.0→2, else 1;
fcf_to_debt >0.25→5, >0.15→4, >0.08→3, >0.03→2, else 1. -/
theorem C2_step_tables (r : ℚ) :
    (∀ m : CreditMetrics, (compute_score m).score =
      debt_ebitda_score m.debt_to_ebitda + ic_score m.interest_coverage
        + dscr_score m.dscr + fcf_score m.fcf_to_debt) ∧
    (r ≤ 0 → debt_ebitda_score (.fin r) = 5) ∧
    (0 < r → r < 2 → debt_ebitda_score (.fin r) = 5) ∧
    (2 ≤ r → r < 3 → debt_ebitda_score (.fin r) = 4) ∧
    (3 ≤ r → r < 4 → debt_ebitda_score (.fin r) = 3) ∧
    (4 ≤ r → r < 5 → debt_ebitda_score (.fin r) = 2) ∧
    (5 ≤ r → debt_ebitda_score (.fin r) = 1) ∧
    (8 < r → ic_score (.fin r) = 5) ∧
    (5 < r → r ≤ 8 → ic_score (.fin r) = 4) ∧
    (3 < r → r ≤ 5 → ic_score (.fin r) = 3) ∧
    (1.5 < r → r ≤ 3 → ic_score (.fin r) = 2) ∧
    (r ≤ 1.5 → ic_score (.fin r) = 1) ∧
    (1.8 < r → dscr_score (.fin r) = 5) ∧
    (1.4 < r → r ≤ 1.8 → dscr_score (.fin r) = 4) ∧
    (1.1 < r → r ≤ 1.4 → dscr_score (.fin r) = 3) ∧
    (1.0 < r → r ≤ 1.1 → dscr_score (.fin r) = 2) ∧
    (r ≤ 1.0 → dscr_score (.fin r) = 1) ∧
    (0.25 < r → fcf_score (.fin r) = 5) ∧
    (0.15 < r → r ≤ 0.25 → fcf_score (.fin r) = 4) ∧
    (0.08 < r → r ≤ 0.15 → fcf_score (.fin r) = 3) ∧
    (0.03 < r → r ≤ 0.08 → fcf_score (.fin r) = 2) ∧
    (r ≤ 0.03 → fcf_score (.fin r) = 1) ∧
    debt_ebitda_score .inf = 1 ∧ debt_ebitda_score .ninf = 5 ∧
    ic_score .inf = 5 ∧ ic_score .ninf = 1 ∧
    dscr_score .inf = 5 ∧ dscr_score .ninf = 1 ∧
    fcf_score .inf = 5 ∧ fcf_score .ninf = 1 := by
  refine ⟨compute_score_score,
    ?_, ?_, ?_, ?_, ?_, ?_, ?_, ?_, ?_, ?_, ?_, ?_, ?_, ?_, ?_, ?_, ?_, ?_, ?_, ?_, ?_,
    by decide, by decide, by decide, by decide, by decide, by decide, by decide, by decide⟩ <;>
    · intros
      simp only [debt_ebitda_score, ic_score, dscr_score, fcf_score, Val.le, Val.lt]
      split_ifs <;> first | rfl | linarith

/-- Witness for C2 at concrete ratio values 2.5 (debt_to_ebitda row 4) and 9
(interest_coverage row 5). -/
theorem C2_step_tables_witness :
    (2 : ℚ) ≤ 5/2 ∧ (5/2 : ℚ) < 3 ∧ debt_ebitda_score (.fin (5/2)) = 4 ∧
    (8 : ℚ) < 9 ∧ ic_score (.fin 9) = 5 := by
  refine ⟨by norm_num, by norm_num, ?_, by norm_num, ?_⟩
  · exact (C2_step_tables (5/2)).2.2.2.1 (by norm_num) (by norm_num)
  · exact (C2_step_tables 9).2.2.2.2.2.2.2.1 (by norm_num)

/-- C10: the interest_coverage, dscr and fcf_to_debt sub-scores are
non-decreasing in their ratio, the debt_to_ebitda sub-score is non-increasing,
and with the other three ratios fixed the composite score of `compute_score`
is monotone in each single ratio in the same direction. -/
theorem C10_monotonicity (m : CreditMetrics) (x y : Val) (h : x.le y) :
    ic_score x ≤ ic_score y ∧ dscr_score x ≤ dscr_score y ∧
    fcf_score x ≤ fcf_score y ∧ debt_ebitda_score y ≤ debt_ebitda_score x ∧
    (compute_score { m with interest_coverage := x }).score ≤
      (compute_score { m with interest_coverage := y }).score ∧
    (compute_score { m with dscr := x }).score ≤
      (compute_score { m with dscr := y }).score ∧
    (compute_score { m with fcf_to_debt := x }).score ≤
      (compute_score { m with fcf_to_debt := y }).score ∧
    (compute_score { m with debt_to_ebitda := y }).score ≤
      (compute_score { m with debt_to_ebitda := x }).score := by
  refine ⟨ic_score_mono h, dscr_score_mono h, fcf_score_mono h,
    debt_ebitda_score_anti h, ?_, ?_, ?_, ?_⟩ <;>
    · simp only [compute_score_score]
      linarith [ic_score_mono h, dscr_score_mono h, fcf_score_mono h,
        debt_ebitda_score_anti h]

/-- Witness for C10 with interest_coverage raised from 2 to +∞. -/
theorem C10_monotonicity_witness :
    (Val.fin 2).le .inf ∧
    (compute_score { sample_metrics with interest_coverage := .fin 2 }).score ≤
      (compute_score { sample_metrics with interest_coverage := .inf }).score :=
  ⟨by decide,
   (C10_monotonicity sample_metrics (.fin 2) .inf (by decide)).2.2.2.2.1⟩
